import Mathlib

/-!
Shallow embedding of the CALIPSO-to-LAS conversion scripts of the
copcVisualization repository, and theorems checking the repository's
specification against it.

Modelling conventions:
- numpy double values read from the HDF arrays are modelled by `FP`:
  a finite rational or one of the non-finite IEEE values, with the IEEE
  comparison semantics (any comparison involving NaN is false).
- numpy 1-D arrays become `List`s; 2-D arrays become lists of rows.
- `np.repeat`, `np.tile`, `np.linspace`, `np.clip` and boolean-mask
  selection are embedded as the list operations `npRepeat`, `npTile`,
  `npLinspace`, `npClip` and `maskFilter`.
- Exceptions become `Except` values; the written output file is threaded
  through an explicit `FileSystem` state so that "no file was written on
  the error path" is expressible.
- Console printing, the HDF reader's I/O, LAS header scale/offset/CRS
  metadata and the external PDAL subprocess are side effects outside the
  properties under check; the external tool and the `mkdir` call are
  modelled as oracle parameters.
-/

/-- A numpy double as stored in the CALIPSO arrays: a finite rational value
or one of the IEEE non-finite values. -/
inductive FP where
  | finite (q : ℚ)
  | posInf
  | negInf
  | nan
deriving DecidableEq

/-- IEEE `<` on doubles: false whenever either operand is NaN. -/
def FP.lt : FP → FP → Bool
  | .finite a, .finite b => decide (a < b)
  | .finite _, .posInf => true
  | .negInf, .finite _ => true
  | .negInf, .posInf => true
  | _, _ => false

/-- IEEE `≤` on doubles: false whenever either operand is NaN. -/
def FP.le : FP → FP → Bool
  | .finite a, .finite b => decide (a ≤ b)
  | .finite _, .posInf => true
  | .posInf, .posInf => true
  | .negInf, .finite _ => true
  | .negInf, .posInf => true
  | .negInf, .negInf => true
  | _, _ => false

/-- `np.isfinite`. -/
def FP.isFinite : FP → Bool
  | .finite _ => true
  | _ => false

/-- `np.repeat l k`: each element of `l` repeated `k` times consecutively. -/
def npRepeat {α : Type} (l : List α) (k : ℕ) : List α :=
  l.flatMap (List.replicate k)

/-- `np.tile l m`: the whole array `l` concatenated `m` times. -/
def npTile {α : Type} (l : List α) (m : ℕ) : List α :=
  (List.replicate m l).flatten

/-- `np.linspace a b n` (endpoint=True): `n` evenly spaced samples whose
first value is `a` and whose last value is `b`. -/
def npLinspace (a b : ℚ) (n : ℕ) : List ℚ :=
  (List.range n).map (fun (i : ℕ) => a + (b - a) * (i : ℚ) / ((n : ℚ) - 1))

/-- `np.clip v lo hi`. -/
def npClip (v lo hi : ℚ) : ℚ :=
  if v < lo then lo else if hi < v then hi else v

/-- Boolean-mask selection `arr[mask]` of numpy, preserving order.
numpy raises an IndexError when the mask length differs from the array
length; this embedding is total (`zip` truncates), so every theorem below
invokes it only where the two lengths provably agree, and none of the
conclusions depends on the truncating behaviour. -/
def maskFilter {α : Type} (l : List α) (mask : List Bool) : List α :=
  (l.zip mask).filterMap (fun p => if p.2 then some p.1 else none)

namespace calipso_to_las

/-- `get_calipso_altitudes` of calipso_to_las.py:
`np.linspace(-2.0, 40.0, n_bins)`. -/
def get_calipso_altitudes (n_bins : ℕ) : List ℚ :=
  npLinspace (-2) 40 n_bins

/-- The dictionary returned by `read_calipso_hdf`: the five arrays read from
the HDF file plus the generated altitude grid.  Backscatter arrays are 2-D,
row-major, one row per profile. -/
structure CalipsoData where
  lat : List FP
  lon : List FP
  altitudes : List ℚ
  backscatter_532 : List (List FP)
  backscatter_1064 : List (List FP)
  profile_time : List FP
deriving DecidableEq

/-- `np.repeat(lat, n_altitudes)` of `create_point_cloud`. -/
def candidate_lats (d : CalipsoData) : List FP :=
  npRepeat d.lat d.altitudes.length

/-- `np.repeat(lon, n_altitudes)` of `create_point_cloud`. -/
def candidate_lons (d : CalipsoData) : List FP :=
  npRepeat d.lon d.altitudes.length

/-- `np.tile(altitudes, n_profiles)` of `create_point_cloud`
(`n_profiles = len(lat)`). -/
def candidate_alts (d : CalipsoData) : List ℚ :=
  npTile d.altitudes d.lat.length

/-- `np.repeat(profile_time, n_altitudes)` of `create_point_cloud`. -/
def candidate_times (d : CalipsoData) : List FP :=
  npRepeat d.profile_time d.altitudes.length

/-- `backscatter_532.flatten()` of `create_point_cloud` (row-major). -/
def candidate_bs_532 (d : CalipsoData) : List FP :=
  d.backscatter_532.flatten

/-- `backscatter_1064.flatten()` of `create_point_cloud` (row-major). -/
def candidate_bs_1064 (d : CalipsoData) : List FP :=
  d.backscatter_1064.flatten

/-- One entry of the `valid_mask` of `create_point_cloud`:
`(bs_532 > -0.2) & (bs_532 < 3.5) & (bs_1064 > -0.1) & (bs_1064 < 2.6)
 & isfinite(bs_532) & isfinite(bs_1064)`. -/
def validPoint (bs_532 bs_1064 : FP) : Bool :=
  FP.lt (.finite (-0.2)) bs_532 && FP.lt bs_532 (.finite 3.5) &&
  FP.lt (.finite (-0.1)) bs_1064 && FP.lt bs_1064 (.finite 2.6) &&
  bs_532.isFinite && bs_1064.isFinite

/-- The element-wise `valid_mask` of `create_point_cloud`. -/
def valid_mask (d : CalipsoData) : List Bool :=
  List.zipWith validPoint (candidate_bs_532 d) (candidate_bs_1064 d)

/-- The dictionary of parallel 1-D arrays returned by `create_point_cloud`
and consumed by the spatial filter and `write_las`. -/
structure PointCloud where
  lon : List FP
  lat : List FP
  alt : List ℚ
  intensity_532 : List FP
  intensity_1064 : List FP
  gps_time : List FP
deriving DecidableEq

/-- `create_point_cloud` of calipso_to_las.py: broadcast the per-profile
arrays across altitude bins, flatten the backscatter grids, and keep only
the entries selected by `valid_mask`. -/
def create_point_cloud (d : CalipsoData) : PointCloud :=
  { lon := maskFilter (candidate_lons d) (valid_mask d)
    lat := maskFilter (candidate_lats d) (valid_mask d)
    alt := maskFilter (candidate_alts d) (valid_mask d)
    intensity_532 := maskFilter (candidate_bs_532 d) (valid_mask d)
    intensity_1064 := maskFilter (candidate_bs_1064 d) (valid_mask d)
    gps_time := maskFilter (candidate_times d) (valid_mask d) }

/-- The four optional spatial-filter bounds of `convert_calipso_to_las`. -/
structure Bounds where
  lon_min : Option ℚ
  lon_max : Option ℚ
  lat_min : Option ℚ
  lat_max : Option ℚ
deriving DecidableEq

/-- All four bounds absent. -/
def noBounds : Bounds := ⟨none, none, none, none⟩

/-- `v >= m` as numpy evaluates it (false when `v` is NaN). -/
def fpGe (v : FP) (m : ℚ) : Bool := FP.le (.finite m) v

/-- `v <= m` as numpy evaluates it (false when `v` is NaN). -/
def fpLe (v : FP) (m : ℚ) : Bool := FP.le v (.finite m)

/-- One `mask &= (vals <cmp> bound)` step of `convert_calipso_to_las`. -/
def applyBound (mask : List Bool) (vals : List FP) (test : FP → Bool) : List Bool :=
  List.zipWith (fun x y => x && y) mask (vals.map test)

/-- The spatial-filter mask of `convert_calipso_to_las` (lines 266-281):
start from all-true and AND in each supplied bound in source order. -/
def boundsMask (pc : PointCloud) (b : Bounds) : List Bool :=
  let m0 := List.replicate pc.lon.length true
  let m1 := match b.lon_min with
    | some m => applyBound m0 pc.lon (fun v => fpGe v m)
    | none => m0
  let m2 := match b.lon_max with
    | some m => applyBound m1 pc.lon (fun v => fpLe v m)
    | none => m1
  let m3 := match b.lat_min with
    | some m => applyBound m2 pc.lat (fun v => fpGe v m)
    | none => m2
  let m4 := match b.lat_max with
    | some m => applyBound m3 pc.lat (fun v => fpLe v m)
    | none => m3
  m4

/-- The `filter_applied` flag of `convert_calipso_to_las`. -/
def filter_applied (b : Bounds) : Bool :=
  (b.lon_min.isSome || b.lon_max.isSome) || (b.lat_min.isSome || b.lat_max.isSome)

/-- The error kinds the conversion pipeline can raise.  The spec names the
zero-points-after-filter failure `EmptyResultError`; the code raises
`ValueError("No points remain after filtering. ...")` at the same place.
`writeEmpty` models the `ValueError` numpy raises inside `write_las` when
`.min()` is taken of a zero-size coordinate array. -/
inductive ConvError where
  | emptyResult
  | writeEmpty
deriving DecidableEq

/-- The spatial-filter step of `convert_calipso_to_las` (lines 266-304):
if any bound was supplied, build the mask, fail when no point survives,
otherwise keep the masked subset of every array; with no bounds supplied
the point cloud passes through untouched. -/
def spatial_filter (pc : PointCloud) (b : Bounds) : Except ConvError PointCloud :=
  if filter_applied b then
    if (boundsMask pc b).count true = 0 then .error .emptyResult
    else .ok
      { lon := maskFilter pc.lon (boundsMask pc b)
        lat := maskFilter pc.lat (boundsMask pc b)
        alt := maskFilter pc.alt (boundsMask pc b)
        intensity_532 := maskFilter pc.intensity_532 (boundsMask pc b)
        intensity_1064 := maskFilter pc.intensity_1064 (boundsMask pc b)
        gps_time := maskFilter pc.gps_time (boundsMask pc b) }
  else .ok pc

/-- The 532 nm intensity rescale of `write_las`:
`np.clip((v + 0.1) * 10000, 0, 65535).astype(np.uint16)`.
After the clip the value lies in `[0, 65535]`, so the `uint16` cast is a
plain truncation toward zero, i.e. the floor.  Non-finite input is never
produced by the pipeline (retained points are finite); its `uint16` cast is
unspecified in numpy and modelled as 0. -/
def scale_532 : FP → ℕ
  | .finite q => (⌊npClip ((q + 0.1) * 10000) 0 65535⌋).toNat
  | _ => 0

/-- The LAS record content written by `write_las`: coordinates, GPS time and
the 1064 nm channel verbatim, the 532 nm channel rescaled to 16-bit.
Header scale/offset and CRS metadata carry no per-point information and are
not modelled. -/
structure LasFile where
  x : List FP
  y : List FP
  z : List ℚ
  gps_time : List FP
  intensity : List ℕ
  backscatter_1064 : List FP
deriving DecidableEq

/-- `write_las` of calipso_to_las.py.  On a zero-point cloud the first
`point_cloud['lon'].min()` call raises (`writeEmpty`); otherwise the file
content is produced with the field mappings of lines 207-225. -/
def write_las (pc : PointCloud) : Except ConvError LasFile :=
  if pc.lon.length = 0 then .error .writeEmpty
  else .ok
    { x := pc.lon
      y := pc.lat
      z := pc.alt
      gps_time := pc.gps_time
      intensity := pc.intensity_532.map scale_532
      backscatter_1064 := pc.intensity_1064 }

/-- The files visible on disk: written path plus content. -/
abbrev FileSystem := List (String × LasFile)

/-- `convert_calipso_to_las` of calipso_to_las.py, with the already-read
HDF data as input and the file system threaded explicitly: build the point
cloud, apply the spatial filter, then write the LAS file.  Any raised error
leaves the file system untouched. -/
def convert_calipso_to_las (d : CalipsoData) (b : Bounds) (output_path : String)
    (fs : FileSystem) : FileSystem × Except ConvError String :=
  match spatial_filter (create_point_cloud d) b with
  | .error e => (fs, .error e)
  | .ok pc2 =>
    match write_las pc2 with
    | .error e => (fs, .error e)
    | .ok las => ((output_path, las) :: fs, .ok output_path)

/-- Spec-side per-point predicate used to compare against `boundsMask`:
a point satisfies every supplied bound, inclusive, absent bounds imposing
no constraint (spec 4.4). -/
def satisfies (lo la : FP) (b : Bounds) : Bool :=
  (match b.lon_min with | some m => fpGe lo m | none => true) &&
  (match b.lon_max with | some m => fpLe lo m | none => true) &&
  (match b.lat_min with | some m => fpGe la m | none => true) &&
  (match b.lat_max with | some m => fpLe la m | none => true)

/-- Spec-side mask: one `satisfies` entry per point. -/
def pointMask (pc : PointCloud) (b : Bounds) : List Bool :=
  List.zipWith (fun lo la => satisfies lo la b) pc.lon pc.lat

end calipso_to_las

namespace plot_calipso_hdf

/-- `get_calipso_altitudes` of plot_calipso_hdf.py:
`np.linspace(-0.5, 40, n_bins)`. -/
def get_calipso_altitudes (n_bins : ℕ) : List ℚ :=
  npLinspace (-0.5) 40 n_bins

end plot_calipso_hdf

namespace convert_tiled

open calipso_to_las

/-- One latitude tile of convert_tiled.py. -/
structure Tile where
  name : String
  lat_min : ℚ
  lat_max : ℚ
deriving DecidableEq

/-- The four predefined latitude bands of `convert_with_tiles`. -/
def tiles : List Tile :=
  [⟨"south", -90, -30⟩, ⟨"south_mid", -30, 0⟩,
   ⟨"north_mid", 0, 30⟩, ⟨"north", 30, 90⟩]

/-- `subprocess.CalledProcessError`: non-zero exit of the external PDAL
tool (raised because of `check=True`); the only exception class the COPC
step catches. -/
inductive ToolError where
  | calledProcessError (code : ℕ)
deriving DecidableEq

/-- Failure of the initial `output_dir.mkdir(exist_ok=True)` call, which is
outside every per-tile handler. -/
inductive MkdirError where
  | failed
deriving DecidableEq

/-- The logged outcome of one tile: the caught-and-logged LAS conversion
error (`✗ Error creating LAS`), the caught-and-logged COPC tool error
(`✗ Error converting to COPC`), or success. -/
inductive TileOutcome where
  | lasError (e : ConvError)
  | copcError (e : ToolError)
  | success
deriving DecidableEq

/-- The filter kwargs of a latitude tile: only `lat_min`/`lat_max`. -/
def Tile.bounds (t : Tile) : Bounds :=
  ⟨none, none, some t.lat_min, some t.lat_max⟩

/-- The per-tile LAS output path `output_dir/base_tile_name.las`. -/
def Tile.las_path (t : Tile) (base output_dir : String) : String :=
  output_dir ++ "/" ++ base ++ "_tile_" ++ t.name ++ ".las"

/-- One iteration of the tile loop of `convert_with_tiles`: run the full
conversion chain for the tile (its exceptions caught and logged, leaving
the loop to continue), then on success run the external COPC tool, whose
`CalledProcessError` is likewise caught and logged. -/
def process_tile (d : CalipsoData) (copc : Tile → Except ToolError Unit)
    (base output_dir : String) (fs : FileSystem) (t : Tile) :
    FileSystem × TileOutcome :=
  match convert_calipso_to_las d t.bounds (t.las_path base output_dir) fs with
  | (fs2, .error e) => (fs2, .lasError e)
  | (fs2, .ok _) =>
    match copc t with
    | .error e => (fs2, .copcError e)
    | .ok _ => (fs2, .success)

/-- Fold step of the tile loop: thread the file system and append the
tile's logged outcome. -/
def tile_step (d : CalipsoData) (copc : Tile → Except ToolError Unit)
    (base output_dir : String) (acc : FileSystem × List (String × TileOutcome))
    (t : Tile) : FileSystem × List (String × TileOutcome) :=
  ((process_tile d copc base output_dir acc.1 t).1,
   acc.2 ++ [(t.name, (process_tile d copc base output_dir acc.1 t).2)])

/-- `convert_with_tiles` of convert_tiled.py: make the output directory
(failure there is unhandled), then process every one of the four latitude
tiles in order, logging each tile's outcome and never aborting the loop on
a per-tile failure. -/
def convert_with_tiles (mkdir_result : Except MkdirError Unit) (d : CalipsoData)
    (copc : Tile → Except ToolError Unit) (base output_dir : String)
    (fs : FileSystem) :
    Except MkdirError (FileSystem × List (String × TileOutcome)) :=
  match mkdir_result with
  | .error e => .error e
  | .ok _ => .ok (tiles.foldl (tile_step d copc base output_dir) (fs, []))

/-- The `__main__` block of convert_tiled.py: any unhandled exception from
`convert_with_tiles` yields exit status 1, a completed run yields 0. -/
def main_exit (mkdir_result : Except MkdirError Unit) (d : CalipsoData)
    (copc : Tile → Except ToolError Unit) (base output_dir : String)
    (fs : FileSystem) : ℕ :=
  match convert_with_tiles mkdir_result d copc base output_dir fs with
  | .ok _ => 0
  | .error _ => 1

end convert_tiled

/-! Helper lemmas about the numpy list operations. -/

theorem flatten_length_const {α : Type} (rows : List (List α)) (N : ℕ)
    (h : ∀ r ∈ rows, r.length = N) : rows.flatten.length = rows.length * N := by
  induction rows with
  | nil => simp
  | cons r rs ih =>
    simp only [List.flatten_cons, List.length_append, List.length_cons]
    rw [h r (by simp), ih (fun s hs => h s (by simp [hs]))]
    ring

theorem flatten_getElem? {α : Type} (rows : List (List α)) (N : ℕ)
    (h : ∀ r ∈ rows, r.length = N) (p a : ℕ) (ha : a < N) :
    rows.flatten[p * N + a]? = rows[p]?.bind (fun r => r[a]?) := by
  induction rows generalizing p with
  | nil => simp
  | cons r rs ih =>
    have hr : r.length = N := h r (by simp)
    cases p with
    | zero =>
      rw [List.flatten_cons, List.getElem?_append_left (by omega : 0 * N + a < r.length)]
      simp
    | succ p =>
      rw [List.flatten_cons,
        List.getElem?_append_right (by rw [hr]; calc N ≤ N + (p * N + a) := by omega
          _ = (p + 1) * N + a := by ring)]
      have hidx : (p + 1) * N + a - r.length = p * N + a := by
        rw [hr]; have : (p + 1) * N = p * N + N := by ring
        omega
      rw [hidx, ih (fun s hs => h s (by simp [hs])) p, List.getElem?_cons_succ]

theorem npRepeat_length {α : Type} (l : List α) (k : ℕ) :
    (npRepeat l k).length = l.length * k := by
  induction l with
  | nil => simp [npRepeat]
  | cons x xs ih =>
    simp only [npRepeat, List.flatMap_cons, List.length_append, List.length_replicate,
      List.length_cons] at ih ⊢
    rw [ih]; ring

theorem npRepeat_getElem? {α : Type} (l : List α) (k : ℕ) (p a : ℕ) (ha : a < k) :
    (npRepeat l k)[p * k + a]? = l[p]? := by
  induction l generalizing p with
  | nil => simp [npRepeat]
  | cons x xs ih =>
    simp only [npRepeat, List.flatMap_cons] at ih ⊢
    cases p with
    | zero =>
      rw [List.getElem?_append_left (by simp; omega)]
      simp [List.getElem?_replicate, Nat.zero_mul, ha]
    | succ p =>
      rw [List.getElem?_append_right (by simp; calc k ≤ k + (p * k + a) := by omega
        _ = (p + 1) * k + a := by ring)]
      have hidx : (p + 1) * k + a - k = p * k + a := by
        have : (p + 1) * k = p * k + k := by ring
        omega
      rw [List.length_replicate, hidx, ih p, List.getElem?_cons_succ]

theorem npTile_length {α : Type} (l : List α) (m : ℕ) :
    (npTile l m).length = m * l.length := by
  induction m with
  | zero => simp [npTile]
  | succ m ih =>
    simp only [npTile, List.replicate_succ, List.flatten_cons, List.length_append] at ih ⊢
    rw [ih]; ring

theorem npTile_getElem? {α : Type} (l : List α) (m p a : ℕ) (hp : p < m)
    (ha : a < l.length) :
    (npTile l m)[p * l.length + a]? = l[a]? := by
  induction m generalizing p with
  | zero => omega
  | succ m ih =>
    simp only [npTile, List.replicate_succ, List.flatten_cons] at ih ⊢
    cases p with
    | zero =>
      rw [List.getElem?_append_left (by omega : 0 * l.length + a < l.length)]
      simp
    | succ p =>
      rw [List.getElem?_append_right (by calc l.length ≤ l.length + (p * l.length + a) := by omega
        _ = (p + 1) * l.length + a := by ring)]
      have hidx : (p + 1) * l.length + a - l.length = p * l.length + a := by
        have : (p + 1) * l.length = p * l.length + l.length := by ring
        omega
      rw [hidx, ih p (by omega)]

theorem maskFilter_nil_mask {α : Type} (l : List α) : maskFilter l [] = [] := by
  simp [maskFilter, List.zip_nil_right]

theorem flatten_nil_of_all_nil {α : Type} (rows : List (List α))
    (h : ∀ r ∈ rows, r = []) : rows.flatten = [] := by
  induction rows with
  | nil => rfl
  | cons r rs ih =>
    rw [List.flatten_cons, h r (by simp), List.nil_append]
    exact ih fun s hs => h s (by simp [hs])

/-! Claim theorems. -/

/-- C7: for every bin count `n ≥ 2`, the altitude grid of the conversion
script has length exactly `n`, is strictly increasing, is linearly spaced
(constant step `(40 - (-2)) / (n - 1)`) between the documented bounds
`-2.0` and `40.0` km, and the same bin count always yields the same
sequence. -/
theorem C7_altitude_grid (n : ℕ) (hn : 2 ≤ n) :
    (calipso_to_las.get_calipso_altitudes n).length = n ∧
    List.Chain' (· < ·) (calipso_to_las.get_calipso_altitudes n) ∧
    (∀ i x y, i + 1 < n →
      (calipso_to_las.get_calipso_altitudes n)[i]? = some x →
      (calipso_to_las.get_calipso_altitudes n)[i + 1]? = some y →
      y = x + (40 - (-2)) / ((n : ℚ) - 1)) ∧
    (calipso_to_las.get_calipso_altitudes n)[0]? = some ((-2 : ℚ)) ∧
    (calipso_to_las.get_calipso_altitudes n).getLast? = some ((40 : ℚ)) ∧
    ∀ m : ℕ, m = n →
      calipso_to_las.get_calipso_altitudes m = calipso_to_las.get_calipso_altitudes n := by
  have hq : (1 : ℚ) < (n : ℚ) := by exact_mod_cast (by omega : 1 < n)
  have hq0 : ((n : ℚ) - 1) ≠ 0 := by linarith
  have hlen : (calipso_to_las.get_calipso_altitudes n).length = n := by
    unfold calipso_to_las.get_calipso_altitudes npLinspace
    rw [List.length_map, List.length_range]
  have hget : ∀ i, i < n → (calipso_to_las.get_calipso_altitudes n)[i]? =
      some ((-2) + (40 - (-2)) * (i : ℚ) / ((n : ℚ) - 1)) := by
    intro i hi
    unfold calipso_to_las.get_calipso_altitudes npLinspace
    rw [List.getElem?_map, List.getElem?_range hi, Option.map_some']
  refine ⟨hlen, ?_, ?_, ?_, ?_, fun m hm => by rw [hm]⟩
  · unfold calipso_to_las.get_calipso_altitudes npLinspace
    rw [List.chain'_map]
    obtain ⟨m, rfl⟩ : ∃ m, n = m + 1 := ⟨n - 1, by omega⟩
    rw [List.chain'_range_succ]
    intro j hj
    have hm1 : (1 : ℚ) ≤ (m : ℚ) := by exact_mod_cast (by omega : 1 ≤ m)
    have h2 : (0 : ℚ) < ((m : ℚ) + 1) - 1 := by linarith
    push_cast
    gcongr
    linarith
  · intro i x y h hx hy
    rw [hget i (by omega)] at hx
    rw [hget (i + 1) h] at hy
    have hx2 := Option.some.inj hx
    have hy2 := Option.some.inj hy
    rw [← hx2, ← hy2]
    push_cast
    field_simp
    ring
  · rw [hget 0 (by omega)]
    norm_num
  · rw [List.getLast?_eq_getElem?, hlen, hget (n - 1) (by omega)]
    have hc : ((n - 1 : ℕ) : ℚ) = (n : ℚ) - 1 := by
      push_cast [Nat.cast_sub (by omega : 1 ≤ n)]
      ring
    rw [hc, mul_div_assoc, div_self hq0]
    norm_num

/-- Witness for C7 at bin count 5. -/
theorem C7_altitude_grid_witness :
    2 ≤ 5 ∧ (calipso_to_las.get_calipso_altitudes 5).length = 5 :=
  ⟨by norm_num, (C7_altitude_grid 5 (by norm_num)).1⟩

/-- C9: for every bin count `n ≥ 2` the altitude grid of the conversion
script starts at `-2.0` km while the one of the plotting script starts at
`-0.5` km, so the two generators are not extensionally equal. -/
theorem C9_altitude_bound_discrepancy (n : ℕ) (hn : 2 ≤ n) :
    (calipso_to_las.get_calipso_altitudes n)[0]? = some ((-2 : ℚ)) ∧
    (plot_calipso_hdf.get_calipso_altitudes n)[0]? = some ((-0.5 : ℚ)) ∧
    calipso_to_las.get_calipso_altitudes n ≠ plot_calipso_hdf.get_calipso_altitudes n := by
  have h0 : 0 < n := by omega
  have h1 : (calipso_to_las.get_calipso_altitudes n)[0]? = some ((-2 : ℚ)) := by
    unfold calipso_to_las.get_calipso_altitudes npLinspace
    rw [List.getElem?_map, List.getElem?_range h0, Option.map_some']
    norm_num
  have h2 : (plot_calipso_hdf.get_calipso_altitudes n)[0]? = some ((-0.5 : ℚ)) := by
    unfold plot_calipso_hdf.get_calipso_altitudes npLinspace
    rw [List.getElem?_map, List.getElem?_range h0, Option.map_some']
    norm_num
  refine ⟨h1, h2, fun heq => ?_⟩
  have h3 := congrArg (fun l => l[0]?) heq
  simp only at h3
  rw [h1, h2] at h3
  have h4 : (-2 : ℚ) = -0.5 := Option.some.inj h3
  norm_num at h4

/-- Witness for C9 at bin count 2. -/
theorem C9_altitude_bound_discrepancy_witness :
    2 ≤ 2 ∧ calipso_to_las.get_calipso_altitudes 2 ≠ plot_calipso_hdf.get_calipso_altitudes 2 :=
  ⟨by norm_num, (C9_altitude_bound_discrepancy 2 (by norm_num)).2.2⟩

/-- C1: for an input with `P` profiles and `N` altitude bins, the point
cloud builder constructs exactly `P * N` candidate entries in every
parallel array before validity filtering, and the candidate at flat index
`p * N + a` carries profile `p`'s latitude, longitude and acquisition
time, altitude-grid entry `a`, and the backscatter values at row `p`,
column `a` of the two channel arrays. -/
theorem C1_candidate_points (d : calipso_to_las.CalipsoData) (P N : ℕ)
    (hlat : d.lat.length = P) (hlon : d.lon.length = P)
    (htime : d.profile_time.length = P) (halt : d.altitudes.length = N)
    (h532 : d.backscatter_532.length = P)
    (h532r : ∀ r ∈ d.backscatter_532, r.length = N)
    (h1064 : d.backscatter_1064.length = P)
    (h1064r : ∀ r ∈ d.backscatter_1064, r.length = N) :
    ((calipso_to_las.candidate_lats d).length = P * N ∧
     (calipso_to_las.candidate_lons d).length = P * N ∧
     (calipso_to_las.candidate_alts d).length = P * N ∧
     (calipso_to_las.candidate_times d).length = P * N ∧
     (calipso_to_las.candidate_bs_532 d).length = P * N ∧
     (calipso_to_las.candidate_bs_1064 d).length = P * N) ∧
    ∀ p a, p < P → a < N →
      (calipso_to_las.candidate_lats d)[p * N + a]? = d.lat[p]? ∧
      (calipso_to_las.candidate_lons d)[p * N + a]? = d.lon[p]? ∧
      (calipso_to_las.candidate_times d)[p * N + a]? = d.profile_time[p]? ∧
      (calipso_to_las.candidate_alts d)[p * N + a]? = d.altitudes[a]? ∧
      (calipso_to_las.candidate_bs_532 d)[p * N + a]? =
        d.backscatter_532[p]?.bind (fun r => r[a]?) ∧
      (calipso_to_las.candidate_bs_1064 d)[p * N + a]? =
        d.backscatter_1064[p]?.bind (fun r => r[a]?) := by
  subst hlat halt
  constructor
  · refine ⟨?_, ?_, ?_, ?_, ?_, ?_⟩
    · rw [calipso_to_las.candidate_lats, npRepeat_length]
    · rw [calipso_to_las.candidate_lons, npRepeat_length, hlon]
    · rw [calipso_to_las.candidate_alts, npTile_length]
    · rw [calipso_to_las.candidate_times, npRepeat_length, htime]
    · rw [calipso_to_las.candidate_bs_532,
        flatten_length_const d.backscatter_532 d.altitudes.length h532r, h532]
    · rw [calipso_to_las.candidate_bs_1064,
        flatten_length_const d.backscatter_1064 d.altitudes.length h1064r, h1064]
  · intro p a hp ha
    refine ⟨?_, ?_, ?_, ?_, ?_, ?_⟩
    · exact npRepeat_getElem? d.lat d.altitudes.length p a ha
    · exact npRepeat_getElem? d.lon d.altitudes.length p a ha
    · exact npRepeat_getElem? d.profile_time d.altitudes.length p a ha
    · exact npTile_getElem? d.altitudes d.lat.length p a hp ha
    · exact flatten_getElem? d.backscatter_532 d.altitudes.length h532r p a ha
    · exact flatten_getElem? d.backscatter_1064 d.altitudes.length h1064r p a ha

/-- Witness for C1 on a concrete input with 1 profile and 2 altitude bins. -/
theorem C1_candidate_points_witness :
    (calipso_to_las.candidate_lons
      (calipso_to_las.CalipsoData.mk [.finite 1] [.finite 2] [0, 1]
        [[.finite 3, .finite 4]] [[.finite 5, .finite 6]] [.finite 7])).length = 1 * 2 ∧
    (calipso_to_las.candidate_bs_532
      (calipso_to_las.CalipsoData.mk [.finite 1] [.finite 2] [0, 1]
        [[.finite 3, .finite 4]] [[.finite 5, .finite 6]] [.finite 7]))[0 * 2 + 1]? =
      (calipso_to_las.CalipsoData.mk [.finite 1] [.finite 2] [0, 1]
        [[.finite 3, .finite 4]] [[.finite 5, .finite 6]]
        [.finite 7]).backscatter_532[0]?.bind (fun r => r[1]?) := by
  have h := C1_candidate_points
    (calipso_to_las.CalipsoData.mk [.finite 1] [.finite 2] [0, 1]
      [[.finite 3, .finite 4]] [[.finite 5, .finite 6]] [.finite 7]) 1 2
    rfl rfl rfl rfl rfl (by simp) rfl (by simp)
  exact ⟨h.1.2.1, (h.2 0 1 (by omega) (by omega)).2.2.2.2.1⟩

/-- C2: the validity filter keeps a candidate point exactly when both
backscatter values are finite, the 532 nm value lies strictly within
(-0.2, 3.5) and the 1064 nm value lies strictly within (-0.1, 2.6); in
particular a 532 nm value of 4.0 is rejected even when the 1064 nm value
is valid. -/
theorem C2_validity_filter :
    (∀ b5 b1 : FP, calipso_to_las.validPoint b5 b1 = true ↔
      ∃ q5 q1 : ℚ, b5 = .finite q5 ∧ b1 = .finite q1 ∧
        -0.2 < q5 ∧ q5 < 3.5 ∧ -0.1 < q1 ∧ q1 < 2.6) ∧
    calipso_to_las.validPoint (.finite 4) (.finite 1) = false := by
  constructor
  · intro b5 b1
    cases b5 <;> cases b1 <;>
      simp [calipso_to_las.validPoint, FP.lt, FP.isFinite, and_assoc]
  · norm_num [calipso_to_las.validPoint, FP.lt, FP.isFinite]

/-- C4: for a shape-consistent input (as every real HDF dataset is) whose
backscatter arrays are empty — zero profiles, or zero altitude bins —
the point-cloud builder returns the empty point set without error: every
candidate array and the validity mask have length `P * N = 0`, so the
boolean-mask selections operate on matching (zero) lengths, exactly as in
numpy, and the output is empty on every component. -/
theorem C4_empty_input (d : calipso_to_las.CalipsoData) (P N : ℕ)
    (hlat : d.lat.length = P) (hlon : d.lon.length = P)
    (htime : d.profile_time.length = P) (halt : d.altitudes.length = N)
    (h532 : d.backscatter_532.length = P)
    (h532r : ∀ r ∈ d.backscatter_532, r.length = N)
    (h1064 : d.backscatter_1064.length = P)
    (h1064r : ∀ r ∈ d.backscatter_1064, r.length = N)
    (h : P = 0 ∨ N = 0) :
    calipso_to_las.candidate_lats d = [] ∧
    calipso_to_las.candidate_lons d = [] ∧
    calipso_to_las.candidate_alts d = [] ∧
    calipso_to_las.candidate_times d = [] ∧
    calipso_to_las.candidate_bs_532 d = [] ∧
    calipso_to_las.candidate_bs_1064 d = [] ∧
    calipso_to_las.valid_mask d = [] ∧
    calipso_to_las.create_point_cloud d =
      { lon := [], lat := [], alt := [], intensity_532 := [],
        intensity_1064 := [], gps_time := [] } := by
  have hPN : P * N = 0 := by rcases h with h | h <;> simp [h]
  have e1 : calipso_to_las.candidate_lats d = [] := by
    apply List.eq_nil_of_length_eq_zero
    rw [calipso_to_las.candidate_lats, npRepeat_length, hlat, halt, hPN]
  have e2 : calipso_to_las.candidate_lons d = [] := by
    apply List.eq_nil_of_length_eq_zero
    rw [calipso_to_las.candidate_lons, npRepeat_length, hlon, halt, hPN]
  have e3 : calipso_to_las.candidate_alts d = [] := by
    apply List.eq_nil_of_length_eq_zero
    rw [calipso_to_las.candidate_alts, npTile_length, hlat, halt, hPN]
  have e4 : calipso_to_las.candidate_times d = [] := by
    apply List.eq_nil_of_length_eq_zero
    rw [calipso_to_las.candidate_times, npRepeat_length, htime, halt, hPN]
  have e5 : calipso_to_las.candidate_bs_532 d = [] := by
    apply List.eq_nil_of_length_eq_zero
    rw [calipso_to_las.candidate_bs_532,
      flatten_length_const d.backscatter_532 N h532r, h532, hPN]
  have e6 : calipso_to_las.candidate_bs_1064 d = [] := by
    apply List.eq_nil_of_length_eq_zero
    rw [calipso_to_las.candidate_bs_1064,
      flatten_length_const d.backscatter_1064 N h1064r, h1064, hPN]
  have emask : calipso_to_las.valid_mask d = [] := by
    rw [calipso_to_las.valid_mask, e5, e6]
    rfl
  refine ⟨e1, e2, e3, e4, e5, e6, emask, ?_⟩
  simp only [calipso_to_las.create_point_cloud, emask, maskFilter_nil_mask]

/-- Witness for C4 on a shape-consistent input with one profile and zero
altitude bins (each backscatter array has one empty row). -/
theorem C4_empty_input_witness :
    calipso_to_las.create_point_cloud
      (calipso_to_las.CalipsoData.mk [.finite 1] [.finite 2] [] [[]] [[]] [.finite 3]) =
      { lon := [], lat := [], alt := [], intensity_532 := [],
        intensity_1064 := [], gps_time := [] } :=
  (C4_empty_input
    (calipso_to_las.CalipsoData.mk [.finite 1] [.finite 2] [] [[]] [[]] [.finite 3])
    1 0 rfl rfl rfl rfl rfl (by simp) rfl (by simp)
    (Or.inr rfl)).2.2.2.2.2.2.2

theorem applyBound_getElem? (mask : List Bool) (vals : List FP) (t : FP → Bool)
    (i : ℕ) :
    (calipso_to_las.applyBound mask vals t)[i]? =
      match mask[i]?, vals[i]? with
      | some x, some v => some (x && t v)
      | _, _ => none := by
  rw [calipso_to_las.applyBound, List.getElem?_zipWith, List.getElem?_map]
  cases mask[i]? <;> cases vals[i]? <;> rfl

theorem replicate_true_getElem? {α : Type} (l : List α) (i : ℕ) :
    (List.replicate l.length true)[i]? = l[i]?.map (fun _ => true) := by
  rw [List.getElem?_replicate]
  by_cases h : i < l.length
  · rw [if_pos h, List.getElem?_eq_getElem h]
    rfl
  · rw [if_neg h, List.getElem?_eq_none (by omega)]
    rfl

/-- The mask built by the four `mask &=` steps equals the one-pass
spec-side mask, provided the lon and lat arrays have equal length. -/
theorem boundsMask_eq_pointMask (pc : calipso_to_las.PointCloud)
    (b : calipso_to_las.Bounds) (hl : pc.lat.length = pc.lon.length) :
    calipso_to_las.boundsMask pc b = calipso_to_las.pointMask pc b := by
  apply List.ext_getElem?
  intro i
  rw [calipso_to_las.pointMask, List.getElem?_zipWith]
  obtain ⟨lm, lM, am, aM⟩ := b
  by_cases h : i < pc.lon.length
  · have h2 : i < pc.lat.length := by rw [hl]; exact h
    cases lm <;> cases lM <;> cases am <;> cases aM <;>
      simp [calipso_to_las.boundsMask, applyBound_getElem?, replicate_true_getElem?,
        calipso_to_las.satisfies, List.getElem?_eq_getElem h, List.getElem?_eq_getElem h2,
        Bool.and_assoc]
  · have h2 : pc.lat.length ≤ i := by omega
    cases lm <;> cases lM <;> cases am <;> cases aM <;>
      simp [calipso_to_las.boundsMask, applyBound_getElem?, replicate_true_getElem?,
        calipso_to_las.satisfies, List.getElem?_eq_none (by omega : pc.lon.length ≤ i),
        List.getElem?_eq_none h2]

/-- C5: with no bounds supplied the spatial filter is the identity (order
preserved); with at least one bound supplied, and at least one point
satisfying every supplied bound, it returns exactly the points that
satisfy all supplied bounds (inclusive comparisons, unconstrained axes
unrestricted), in order. -/
theorem C5_spatial_filter :
    (∀ pc : calipso_to_las.PointCloud,
      calipso_to_las.spatial_filter pc calipso_to_las.noBounds = .ok pc) ∧
    (∀ (pc : calipso_to_las.PointCloud) (b : calipso_to_las.Bounds),
      pc.lat.length = pc.lon.length →
      calipso_to_las.filter_applied b = true →
      (calipso_to_las.pointMask pc b).count true ≠ 0 →
      calipso_to_las.spatial_filter pc b = .ok
        { lon := maskFilter pc.lon (calipso_to_las.pointMask pc b)
          lat := maskFilter pc.lat (calipso_to_las.pointMask pc b)
          alt := maskFilter pc.alt (calipso_to_las.pointMask pc b)
          intensity_532 := maskFilter pc.intensity_532 (calipso_to_las.pointMask pc b)
          intensity_1064 := maskFilter pc.intensity_1064 (calipso_to_las.pointMask pc b)
          gps_time := maskFilter pc.gps_time (calipso_to_las.pointMask pc b) }) := by
  constructor
  · intro pc
    rfl
  · intro pc b hl happ hcount
    unfold calipso_to_las.spatial_filter
    rw [if_pos happ, boundsMask_eq_pointMask pc b hl, if_neg hcount]

/-- Witness for C5 on a one-point cloud with only a longitude lower bound
supplied. -/
theorem C5_spatial_filter_witness :
    calipso_to_las.spatial_filter
        { lon := [.finite 10], lat := [.finite 20], alt := [1],
          intensity_532 := [.finite 0], intensity_1064 := [.finite 0],
          gps_time := [.finite 5] }
        { lon_min := some 0, lon_max := none, lat_min := none, lat_max := none } = .ok
      { lon := maskFilter [FP.finite 10]
          (calipso_to_las.pointMask
            { lon := [.finite 10], lat := [.finite 20], alt := [1],
              intensity_532 := [.finite 0], intensity_1064 := [.finite 0],
              gps_time := [.finite 5] }
            { lon_min := some 0, lon_max := none, lat_min := none, lat_max := none })
        lat := maskFilter [FP.finite 20]
          (calipso_to_las.pointMask
            { lon := [.finite 10], lat := [.finite 20], alt := [1],
              intensity_532 := [.finite 0], intensity_1064 := [.finite 0],
              gps_time := [.finite 5] }
            { lon_min := some 0, lon_max := none, lat_min := none, lat_max := none })
        alt := maskFilter [(1 : ℚ)]
          (calipso_to_las.pointMask
            { lon := [.finite 10], lat := [.finite 20], alt := [1],
              intensity_532 := [.finite 0], intensity_1064 := [.finite 0],
              gps_time := [.finite 5] }
            { lon_min := some 0, lon_max := none, lat_min := none, lat_max := none })
        intensity_532 := maskFilter [FP.finite 0]
          (calipso_to_las.pointMask
            { lon := [.finite 10], lat := [.finite 20], alt := [1],
              intensity_532 := [.finite 0], intensity_1064 := [.finite 0],
              gps_time := [.finite 5] }
            { lon_min := some 0, lon_max := none, lat_min := none, lat_max := none })
        intensity_1064 := maskFilter [FP.finite 0]
          (calipso_to_las.pointMask
            { lon := [.finite 10], lat := [.finite 20], alt := [1],
              intensity_532 := [.finite 0], intensity_1064 := [.finite 0],
              gps_time := [.finite 5] }
            { lon_min := some 0, lon_max := none, lat_min := none, lat_max := none })
        gps_time := maskFilter [FP.finite 5]
          (calipso_to_las.pointMask
            { lon := [.finite 10], lat := [.finite 20], alt := [1],
              intensity_532 := [.finite 0], intensity_1064 := [.finite 0],
              gps_time := [.finite 5] }
            { lon_min := some 0, lon_max := none, lat_min := none, lat_max := none }) } :=
  C5_spatial_filter.2
    { lon := [.finite 10], lat := [.finite 20], alt := [1],
      intensity_532 := [.finite 0], intensity_1064 := [.finite 0],
      gps_time := [.finite 5] }
    { lon_min := some 0, lon_max := none, lat_min := none, lat_max := none }
    rfl rfl
    (by norm_num [calipso_to_las.pointMask, calipso_to_las.satisfies,
      calipso_to_las.fpGe, FP.le])

/-- The tile loop logs one outcome per tile, in tile order, whatever the
per-tile results are. -/
theorem tile_loop_log_names (ts : List convert_tiled.Tile)
    (d : calipso_to_las.CalipsoData)
    (copc : convert_tiled.Tile → Except convert_tiled.ToolError Unit)
    (base output_dir : String) (fs : calipso_to_las.FileSystem)
    (acc : List (String × convert_tiled.TileOutcome)) :
    ((ts.foldl (convert_tiled.tile_step d copc base output_dir) (fs, acc)).2).map
        Prod.fst =
      acc.map Prod.fst ++ ts.map convert_tiled.Tile.name := by
  induction ts generalizing fs acc with
  | nil => simp
  | cons t ts ih =>
    rw [List.foldl_cons, convert_tiled.tile_step]
    rw [ih]
    simp

/-- C8: the tiling driver logs an outcome for every one of the four
predefined latitude tiles, in order, regardless of per-tile conversion or
external-tool failures (each is caught and logged, and the loop
continues), and the process exits 0 whenever the tile loop completes, even
if some or all tiles failed; it exits 1 only when the unhandled top-level
mkdir step fails. -/
theorem C8_tiling_driver :
    (∀ (d : calipso_to_las.CalipsoData)
       (copc : convert_tiled.Tile → Except convert_tiled.ToolError Unit)
       (base output_dir : String) (fs : calipso_to_las.FileSystem),
      ∃ r, convert_tiled.convert_with_tiles (.ok ()) d copc base output_dir fs =
          .ok r ∧
        r.2.map Prod.fst = ["south", "south_mid", "north_mid", "north"]) ∧
    (∀ (d : calipso_to_las.CalipsoData)
       (copc : convert_tiled.Tile → Except convert_tiled.ToolError Unit)
       (base output_dir : String) (fs : calipso_to_las.FileSystem),
      convert_tiled.main_exit (.ok ()) d copc base output_dir fs = 0) ∧
    (∀ (e : convert_tiled.MkdirError) (d : calipso_to_las.CalipsoData)
       (copc : convert_tiled.Tile → Except convert_tiled.ToolError Unit)
       (base output_dir : String) (fs : calipso_to_las.FileSystem),
      convert_tiled.main_exit (.error e) d copc base output_dir fs = 1) := by
  refine ⟨?_, ?_, ?_⟩
  · intro d copc base output_dir fs
    refine ⟨_, rfl, ?_⟩
    rw [tile_loop_log_names convert_tiled.tiles d copc base output_dir fs []]
    simp [convert_tiled.tiles]
  · intro d copc base output_dir fs
    rfl
  · intro e d copc base output_dir fs
    rfl

/-- C6: for a non-empty point cloud the writer stores, per point, the 532 nm
value rescaled by `clip((v + 0.1) * 10000, 0, 65535)` truncated to an
unsigned 16-bit integer as the primary intensity, and the 1064 nm value
unchanged in the secondary custom field; an input of 0.0 maps to 1000, any
input of 6.5 or more maps to 65535, and every stored intensity fits in 16
bits. -/
theorem C6_intensity_rescale :
    (∀ pc : calipso_to_las.PointCloud, pc.lon.length ≠ 0 →
      calipso_to_las.write_las pc = .ok
        { x := pc.lon, y := pc.lat, z := pc.alt, gps_time := pc.gps_time,
          intensity := pc.intensity_532.map calipso_to_las.scale_532,
          backscatter_1064 := pc.intensity_1064 }) ∧
    (∀ q : ℚ, calipso_to_las.scale_532 (.finite q) =
      (⌊npClip ((q + 0.1) * 10000) 0 65535⌋).toNat) ∧
    calipso_to_las.scale_532 (.finite 0) = 1000 ∧
    (∀ q : ℚ, 6.5 ≤ q → calipso_to_las.scale_532 (.finite q) = 65535) ∧
    (∀ v : FP, calipso_to_las.scale_532 v < 65536) := by
  refine ⟨?_, fun q => rfl, ?_, ?_, ?_⟩
  · intro pc h
    unfold calipso_to_las.write_las
    rw [if_neg h]
  · show (⌊npClip (((0 : ℚ) + 0.1) * 10000) 0 65535⌋).toNat = 1000
    have hc : npClip (((0 : ℚ) + 0.1) * 10000) 0 65535 = 1000 := by
      unfold npClip
      rw [if_neg (by norm_num), if_neg (by norm_num)]
      norm_num
    rw [hc]
    norm_num
    decide
  · intro q hq
    show (⌊npClip ((q + 0.1) * 10000) 0 65535⌋).toNat = 65535
    have hc : npClip ((q + 0.1) * 10000) 0 65535 = 65535 := by
      unfold npClip
      rw [if_neg (by nlinarith), if_pos (by nlinarith)]
    rw [hc]
    norm_num
    decide
  · intro v
    cases v with
    | finite q =>
      show (⌊npClip ((q + 0.1) * 10000) 0 65535⌋).toNat < 65536
      have hle : npClip ((q + 0.1) * 10000) 0 65535 ≤ 65535 := by
        unfold npClip
        split_ifs with h1 h2
        · norm_num
        · norm_num
        · exact le_of_not_lt h2
      have hfl : (⌊npClip ((q + 0.1) * 10000) 0 65535⌋) ≤ 65535 := by
        calc (⌊npClip ((q + 0.1) * 10000) 0 65535⌋) ≤ ⌊(65535 : ℚ)⌋ :=
              Int.floor_le_floor hle
          _ = 65535 := by norm_num
      omega
    | posInf => norm_num [calipso_to_las.scale_532]
    | negInf => norm_num [calipso_to_las.scale_532]
    | nan => norm_num [calipso_to_las.scale_532]

/-- Witness for C6 on a one-point cloud with a 532 nm value of 0.0 and a
1064 nm value of 7. -/
theorem C6_intensity_rescale_witness :
    calipso_to_las.write_las
        { lon := [.finite 0], lat := [.finite 0], alt := [1],
          intensity_532 := [.finite 0], intensity_1064 := [.finite 7],
          gps_time := [.finite 2] } = .ok
      { x := [.finite 0], y := [.finite 0], z := [1], gps_time := [.finite 2],
        intensity := [FP.finite 0].map calipso_to_las.scale_532,
        backscatter_1064 := [.finite 7] } ∧
    calipso_to_las.scale_532 (.finite 0) = 1000 ∧
    calipso_to_las.scale_532 (.finite 7) = 65535 :=
  ⟨C6_intensity_rescale.1
      { lon := [.finite 0], lat := [.finite 0], alt := [1],
        intensity_532 := [.finite 0], intensity_1064 := [.finite 7],
        gps_time := [.finite 2] } (by simp),
   C6_intensity_rescale.2.2.1,
   C6_intensity_rescale.2.2.2.1 7 (by norm_num)⟩

/-- C10: when the spatial filter is applied and leaves zero points, the
conversion returns the empty-result error before `write_las` is ever
invoked: the file system is returned unchanged and no output path is
produced. -/
theorem C10_no_output_on_empty_filter (d : calipso_to_las.CalipsoData)
    (b : calipso_to_las.Bounds) (out : String) (fs : calipso_to_las.FileSystem)
    (happ : calipso_to_las.filter_applied b = true)
    (hnone : (calipso_to_las.boundsMask (calipso_to_las.create_point_cloud d) b).count
      true = 0) :
    calipso_to_las.convert_calipso_to_las d b out fs =
      (fs, .error calipso_to_las.ConvError.emptyResult) := by
  have hsf : calipso_to_las.spatial_filter (calipso_to_las.create_point_cloud d) b =
      .error calipso_to_las.ConvError.emptyResult := by
    unfold calipso_to_las.spatial_filter
    rw [if_pos happ, if_pos hnone]
  unfold calipso_to_las.convert_calipso_to_las
  rw [hsf]

/-- Witness for C10: a single valid point at latitude 0 filtered by the
latitude band [50, 60] leaves the file system empty. -/
theorem C10_no_output_on_empty_filter_witness :
    calipso_to_las.convert_calipso_to_las
      (calipso_to_las.CalipsoData.mk [.finite 0] [.finite 0] [1]
        [[.finite 1]] [[.finite 1]] [.finite 2])
      { lon_min := none, lon_max := none, lat_min := some 50, lat_max := some 60 }
      "out.las" [] =
    ([], .error calipso_to_las.ConvError.emptyResult) :=
  C10_no_output_on_empty_filter
    (calipso_to_las.CalipsoData.mk [.finite 0] [.finite 0] [1]
      [[.finite 1]] [[.finite 1]] [.finite 2])
    { lon_min := none, lon_max := none, lat_min := some 50, lat_max := some 60 }
    "out.las" [] rfl
    (by norm_num [calipso_to_las.boundsMask, calipso_to_las.applyBound,
      calipso_to_las.create_point_cloud, calipso_to_las.valid_mask,
      calipso_to_las.candidate_lats, calipso_to_las.candidate_lons,
      calipso_to_las.candidate_alts, calipso_to_las.candidate_times,
      calipso_to_las.candidate_bs_532, calipso_to_las.candidate_bs_1064,
      calipso_to_las.validPoint, npRepeat, npTile, maskFilter,
      List.filterMap_cons, List.filterMap_nil,
      calipso_to_las.fpGe, calipso_to_las.fpLe, FP.le, FP.lt, FP.isFinite])

/-- C3 counterexample: with the empty point set and no bounds supplied, no
point satisfies all the supplied bounds (there are no points at all), yet
the spatial-filter step silently returns the empty set onward instead of
raising the empty-result error. -/
theorem C3_counterexample :
    calipso_to_las.pointMask
        { lon := [], lat := [], alt := [], intensity_532 := [],
          intensity_1064 := [], gps_time := [] } calipso_to_las.noBounds = [] ∧
    calipso_to_las.spatial_filter
        { lon := [], lat := [], alt := [], intensity_532 := [],
          intensity_1064 := [], gps_time := [] } calipso_to_las.noBounds =
      .ok { lon := [], lat := [], alt := [], intensity_532 := [],
            intensity_1064 := [], gps_time := [] } ∧
    calipso_to_las.spatial_filter
        { lon := [], lat := [], alt := [], intensity_532 := [],
          intensity_1064 := [], gps_time := [] } calipso_to_las.noBounds ≠
      .error calipso_to_las.ConvError.emptyResult :=
  ⟨rfl, rfl, by
    simp [calipso_to_las.spatial_filter, calipso_to_las.filter_applied,
      calipso_to_las.noBounds]⟩

/-- C3 (amended): whenever at least one spatial bound is supplied and no
point satisfies every supplied bound, the spatial-filter step fails with
the empty-result error before anything reaches the writer; it never
silently returns an empty point set. -/
theorem C3_empty_filter_error (pc : calipso_to_las.PointCloud)
    (b : calipso_to_las.Bounds) (hl : pc.lat.length = pc.lon.length)
    (happ : calipso_to_las.filter_applied b = true)
    (hnone : (calipso_to_las.pointMask pc b).count true = 0) :
    calipso_to_las.spatial_filter pc b = .error calipso_to_las.ConvError.emptyResult := by
  unfold calipso_to_las.spatial_filter
  rw [if_pos happ, boundsMask_eq_pointMask pc b hl, if_pos hnone]

/-- Witness for C3 on a one-point cloud excluded by a latitude lower
bound. -/
theorem C3_empty_filter_error_witness :
    calipso_to_las.spatial_filter
        { lon := [.finite 10], lat := [.finite 20], alt := [1],
          intensity_532 := [.finite 0], intensity_1064 := [.finite 0],
          gps_time := [.finite 5] }
        { lon_min := none, lon_max := none, lat_min := some 50, lat_max := none } =
      .error calipso_to_las.ConvError.emptyResult :=
  C3_empty_filter_error
    { lon := [.finite 10], lat := [.finite 20], alt := [1],
      intensity_532 := [.finite 0], intensity_1064 := [.finite 0],
      gps_time := [.finite 5] }
    { lon_min := none, lon_max := none, lat_min := some 50, lat_max := none }
    rfl rfl
    (by norm_num [calipso_to_las.pointMask, calipso_to_las.satisfies,
      calipso_to_las.fpGe, FP.le])
